import Mathlib

/-!
Shallow embedding of `src/textarea.js` from the textcomplete repository: the
`Textarea` adapter that binds the autocomplete editor abstraction to a native
textarea element.  Element state is passed explicitly; read operations return
the (unchanged) element alongside their value so that frame properties can be
stated.  External collaborators that the source consumes as black boxes
(`calculateElementOffset`, `getCaretCoordinates`, `getLineHeight`,
`document.documentElement`) are supplied as an environment record.  Pieces of
the repository that are not in `src/` (editor.js's emit helpers, `getCode`,
`Editor#finalize`, and the DOM listener dispatch) are modelled from the spec
and marked as such in their doc comments.
-/

namespace Textcomplete

/-- Logical key codes produced by decoding a keyboard event
(`UP`, `DOWN`, `ENTER`, `ESC`, `BS` as in the source; `OTHER` stands for any
key that decodes to none of these). -/
inductive KeyCode where
  | UP
  | DOWN
  | ENTER
  | ESC
  | BS
  | OTHER
deriving DecidableEq, Repr

/-- Editor-level notifications emitted to engine listeners: `change`,
`move(direction)`, `enter`, `esc` (spec section 6). -/
inductive Notification where
  | change
  | move (code : KeyCode)
  | enter
  | esc
deriving DecidableEq, Repr

/-- Observable state of the host page's textarea element: its value, the
selection offsets, focus, text direction (`dir` attribute), scroll offsets,
and whether each of the adapter's three listeners (`input`, `keydown`,
`keyup`) is currently registered on it. -/
structure Element where
  value : String
  selectionStart : Nat
  selectionEnd : Nat
  focused : Bool
  dir : String
  scrollTop : Int
  scrollLeft : Int
  inputListener : Bool
  keydownListener : Bool
  keyupListener : Bool
deriving DecidableEq, Repr

/-- JavaScript `v.substring(0, i)`: the code units of `v` before offset `i`
(clamped to the length of `v`, as `String.prototype.substring` clamps). -/
def jsSubstringTo (v : String) (i : Nat) : String :=
  String.mk (v.data.take i)

/-- JavaScript `v.substring(i)`: the code units of `v` from offset `i` on
(clamped to the length of `v`). -/
def jsSubstringFrom (v : String) (i : Nat) : String :=
  String.mk (v.data.drop i)

/-- `getBeforeCursor()`: `this.el.value.substring(0, this.el.selectionEnd)`.
Returns the element unchanged alongside the result (the source performs no
writes). -/
def getBeforeCursor (el : Element) : String × Element :=
  (jsSubstringTo el.value el.selectionEnd, el)

/-- `getAfterCursor()`: `this.el.value.substring(this.el.selectionEnd)`. -/
def getAfterCursor (el : Element) : String × Element :=
  (jsSubstringFrom el.value el.selectionEnd, el)

/-- External `SearchResult` value: opaque except for its
`replace(beforeText, afterText)` method, which returns a two-part tuple
(`some (p, s)`) or a non-tuple sentinel (`none`), exactly the distinction the
source's `Array.isArray(replace)` test makes. -/
structure SearchResult where
  replace : String → String → Option (String × String)

/-- `applySearchResult(searchResult)`: calls
`searchResult.replace(this.getBeforeCursor(), this.getAfterCursor())`; if the
result is an array, assigns `this.el.value = replace[0] + replace[1]` and
`this.el.selectionStart = this.el.selectionEnd = replace[0].length`; in all
cases calls `this.el.focus()` afterward. -/
def applySearchResult (searchResult : SearchResult) (el : Element) : Element :=
  let (before, el1) := getBeforeCursor el
  let (after, el2) := getAfterCursor el1
  let replaced := searchResult.replace before after
  let el3 :=
    match replaced with
    | some (p, s) =>
        { el2 with value := p ++ s, selectionEnd := p.length, selectionStart := p.length }
    | none => el2
  { el3 with focused := true }

/-- Pixel point with `top` and `left` components, as returned by the external
offset and caret-coordinate utilities. -/
structure Point where
  top : Int
  left : Int
deriving DecidableEq, Repr

/-- Environment of external geometry services the source consumes as black
boxes: `calculateElementOffset(el)` (utils.js), `getCaretCoordinates(el, i)`
(the textarea-caret package, keyed by the selection offset),
`getLineHeight(el)` (the line-height package), and
`document.documentElement.clientWidth` when a document root is available
(`none` models an unavailable `document.documentElement`). -/
structure GeometryEnv where
  calculateElementOffset : Point
  getCaretCoordinates : Nat → Point
  lineHeight : Int
  documentElement : Option Int

/-- Cursor offset returned by `getCursorOffset`: `{top, left, lineHeight}`
for left-to-right elements, `{top, right, lineHeight}` for right-to-left
ones. -/
inductive CursorOffset where
  | ltr (top left lineHeight : Int)
  | rtl (top right lineHeight : Int)
deriving DecidableEq, Repr

/-- `getElScroll()` (private): `{ top: this.el.scrollTop, left: this.el.scrollLeft }`. -/
def getElScroll (el : Element) : Point × Element :=
  ({ top := el.scrollTop, left := el.scrollLeft }, el)

/-- `getCursorPosition()` (private):
`getCaretCoordinates(this.el, this.el.selectionEnd)`. -/
def getCursorPosition (env : GeometryEnv) (el : Element) : Point × Element :=
  (env.getCaretCoordinates el.selectionEnd, el)

/-- `getCursorOffset()`: combines element offset, scroll offset, caret
position and line height; returns a `left`-based offset unless
`this.el.dir === 'rtl'`, in which case it returns a `right`-based offset when
`document.documentElement` exists and `undefined` (`none`) otherwise. -/
def getCursorOffset (env : GeometryEnv) (el : Element) : Option CursorOffset × Element :=
  let elOffset := env.calculateElementOffset
  let (elScroll, el1) := getElScroll el
  let (cursorPosition, el2) := getCursorPosition env el1
  let lineHeight := env.lineHeight
  let top := elOffset.top - elScroll.top + cursorPosition.top + lineHeight
  let left := elOffset.left - elScroll.left + cursorPosition.left
  if el2.dir ≠ "rtl" then
    (some (CursorOffset.ltr top left lineHeight), el2)
  else
    match env.documentElement with
    | some clientWidth => (some (CursorOffset.rtl top (clientWidth - left) lineHeight), el2)
    | none => (none, el2)

/-- Keyboard event as the adapter sees it, carrying its decoded logical
code.  Modelled from the spec: the decoder `getCode` lives in editor.js,
which is not in `src/`; per the spec a keydown/keyup event is decoded to a
logical code, so the event here carries that code directly. -/
structure KeyEvent where
  code : KeyCode
deriving DecidableEq, Repr

/-- Modelled from the spec: editor.js's `getCode(e)` decodes a keyboard
event to a logical code. -/
def getCode (e : KeyEvent) : KeyCode :=
  e.code

/-- Emitted editor event as seen after dispatch: the notification together
with its cancelable `defaultPrevented` flag.  Modelled from the spec:
editor.js's emit helpers are not in `src/`; per the spec each outbound
notification carries a default-prevented flag that listeners may set and the
adapter checks after emission. -/
structure EmittedEvent where
  notification : Notification
  defaultPrevented : Bool
deriving DecidableEq, Repr

/-- Modelled from the spec: `emitMoveEvent(code)` of editor.js emits a move
notification carrying the direction; the engine listener (here a function
from notification to the handled flag) may mark it default-prevented. -/
def emitMoveEvent (handler : Notification → Bool) (code : KeyCode) : EmittedEvent :=
  { notification := Notification.move code
    defaultPrevented := handler (Notification.move code) }

/-- Modelled from the spec: `emitEnterEvent()` of editor.js emits the
select/commit notification. -/
def emitEnterEvent (handler : Notification → Bool) : EmittedEvent :=
  { notification := Notification.enter, defaultPrevented := handler Notification.enter }

/-- Modelled from the spec: `emitEscEvent()` of editor.js emits the dismiss
notification. -/
def emitEscEvent (handler : Notification → Bool) : EmittedEvent :=
  { notification := Notification.esc, defaultPrevented := handler Notification.esc }

/-- Modelled from the spec: `emitChangeEvent()` of editor.js emits the
change notification. -/
def emitChangeEvent (handler : Notification → Bool) : EmittedEvent :=
  { notification := Notification.change, defaultPrevented := handler Notification.change }

/-- Result of running `onKeydown`: the notification emitted (if any) and
whether `e.preventDefault()` was called on the native event. -/
structure KeydownResult where
  emitted : Option Notification
  preventDefault : Bool
deriving DecidableEq, Repr

/-- `onInput(_e)` (private): `this.emitChangeEvent()`.  Returns the list of
notifications emitted. -/
def onInput (handler : Notification → Bool) : List Notification :=
  [(emitChangeEvent handler).notification]

/-- `onKeydown(e)` (private): decodes the event; on `UP`/`DOWN` emits a move
event, on `ENTER` an enter event, on `ESC` an esc event, otherwise nothing;
then calls `e.preventDefault()` exactly when an event was emitted and a
listener marked it default-prevented. -/
def onKeydown (handler : Notification → Bool) (e : KeyEvent) : KeydownResult :=
  let code := getCode e
  let event : Option EmittedEvent :=
    if code = KeyCode.UP ∨ code = KeyCode.DOWN then some (emitMoveEvent handler code)
    else if code = KeyCode.ENTER then some (emitEnterEvent handler)
    else if code = KeyCode.ESC then some (emitEscEvent handler)
    else none
  match event with
  | some ev => { emitted := some ev.notification, preventDefault := ev.defaultPrevented }
  | none => { emitted := none, preventDefault := false }

/-- `onKeyup(e)` (private): emits a change notification only when the decoded
code is `BS` and the IE9 flag is set (IE9 fires no input event on deletion). -/
def onKeyup (handler : Notification → Bool) (isIE9 : Bool) (e : KeyEvent) : List Notification :=
  let code := getCode e
  if code = KeyCode.BS ∧ isIE9 = true then [(emitChangeEvent handler).notification]
  else []

/-- The adapter together with the page's element: `el` is the host page's
textarea (the page owns it and it outlives the adapter), `elRef` records
whether the adapter's `this.el` reference is still defined (`delete this.el`
in `finalize` clears it), and `isIE9` is the platform-quirk flag fixed at
construction. -/
structure Textarea where
  el : Element
  elRef : Bool
  isIE9 : Bool
deriving DecidableEq, Repr

/-- `startListening()` (private): `this.el.addEventListener` for `input`,
`keydown` and `keyup`.  Accessing `this.el` after the reference was deleted
throws a `TypeError`, modelled as `Except.error`. -/
def startListening (t : Textarea) : Except String Textarea :=
  if t.elRef then
    Except.ok { t with el := { t.el with
      inputListener := true, keydownListener := true, keyupListener := true } }
  else
    Except.error "TypeError: this.el is undefined"

/-- `stopListening()` (private): `this.el.removeEventListener` for `input`,
`keydown` and `keyup`.  Accessing `this.el` after the reference was deleted
throws a `TypeError`, modelled as `Except.error`. -/
def stopListening (t : Textarea) : Except String Textarea :=
  if t.elRef then
    Except.ok { t with el := { t.el with
      inputListener := false, keydownListener := false, keyupListener := false } }
  else
    Except.error "TypeError: this.el is undefined"

/-- Modelled from the spec: `Editor#finalize` (editor.js, not in `src/`)
releases editor-side handler state only; it touches no element listeners and
cannot fail, so on this model's observable state it is the identity. -/
def superFinalize (t : Textarea) : Textarea :=
  t

/-- `finalize()`: `super.finalize()`, then `this.stopListening()`, then
`delete this.el` (clearing `elRef`); an exception thrown by
`stopListening` propagates. -/
def finalize (t : Textarea) : Except String Textarea :=
  match stopListening (superFinalize t) with
  | Except.ok t2 => Except.ok { t2 with elRef := false }
  | Except.error msg => Except.error msg

/-- `constructor(el)`: stores the element reference, fixes the IE9 flag and
registers the three listeners via `startListening()`. -/
def construct (el : Element) (isIE9 : Bool) : Except String Textarea :=
  startListening { el := el, elRef := true, isIE9 := isIE9 }

/-- Native events the host element can dispatch. -/
inductive NativeEvent where
  | input
  | keydown (e : KeyEvent)
  | keyup (e : KeyEvent)
deriving DecidableEq, Repr

/-- Modelled from the spec: native event dispatch on the host element runs
the adapter's handler for the event type exactly when that handler is still
registered on the element.  Returns the notifications emitted and whether
`preventDefault` was called on the native event. -/
def dispatch (t : Textarea) (handler : Notification → Bool) (ev : NativeEvent) :
    List Notification × Bool :=
  match ev with
  | NativeEvent.input =>
      if t.el.inputListener then (onInput handler, false) else ([], false)
  | NativeEvent.keydown e =>
      if t.el.keydownListener then
        let r := onKeydown handler e
        (r.emitted.toList, r.preventDefault)
      else ([], false)
  | NativeEvent.keyup e =>
      if t.el.keyupListener then (onKeyup handler t.isIE9 e, false) else ([], false)

/-! Sample data used by witnesses. -/

/-- Sample element matching the spec scenario: value `"hello"`, caret at 5. -/
def elHello : Element :=
  { value := "hello", selectionStart := 5, selectionEnd := 5, focused := true,
    dir := "ltr", scrollTop := 0, scrollLeft := 0,
    inputListener := true, keydownListener := true, keyupListener := true }

/-- Sample search result whose replace method returns the tuple
`("hello ", "world")`. -/
def srHello : SearchResult :=
  { replace := fun _ _ => some ("hello ", "world") }

/-- Sample search result whose replace method declines (non-tuple result). -/
def srDecline : SearchResult :=
  { replace := fun _ _ => none }

/-! Helper lemmas. -/

/-- Appending the first `n` code units of `l` to the rest of `l` restores
`l` as a string. -/
theorem mk_take_append_mk_drop (l : List Char) (n : Nat) :
    String.mk (l.take n) ++ String.mk (l.drop n) = String.mk l := by
  show String.mk (l.take n ++ l.drop n) = String.mk l
  rw [List.take_append_drop]

/-! Claim theorems. -/

/-- Claim C1: for all strings `p` and `s`, `applySearchResult` with a search
result whose replace method returns the tuple `(p, s)` sets the element's
value to `p ++ s` and places both `selectionStart` and `selectionEnd` at
`p.length`. -/
theorem applySearchResult_tuple_sets_value_and_caret
    (el : Element) (sr : SearchResult) (p s : String)
    (h : sr.replace (getBeforeCursor el).1 (getAfterCursor el).1 = some (p, s)) :
    (applySearchResult sr el).value = p ++ s ∧
    (applySearchResult sr el).selectionStart = p.length ∧
    (applySearchResult sr el).selectionEnd = p.length := by
  simp only [getBeforeCursor, getAfterCursor] at h
  simp [applySearchResult, getBeforeCursor, getAfterCursor, h]

/-- Witness for C1, the spec's scenario: value `"hello"`, `selectionEnd` 5,
result `("hello ", "world")` gives final value `"hello world"` and caret at
offset 6. -/
theorem applySearchResult_tuple_witness :
    (applySearchResult srHello elHello).value = "hello world" ∧
    (applySearchResult srHello elHello).selectionStart = 6 ∧
    (applySearchResult srHello elHello).selectionEnd = 6 :=
  applySearchResult_tuple_sets_value_and_caret elHello srHello "hello " "world" rfl

/-- Claim C2: for every element, `getBeforeCursor` followed by
`getAfterCursor` concatenate to the full value, `getBeforeCursor` is the
value's first `selectionEnd` code units, and both depend only on the
selection end, never on the selection start. -/
theorem beforeCursor_afterCursor_split (el : Element) :
    (getBeforeCursor el).1 ++ (getAfterCursor el).1 = el.value ∧
    (getBeforeCursor el).1 = String.mk (el.value.data.take el.selectionEnd) ∧
    ∀ k : Nat,
      (getBeforeCursor { el with selectionStart := k }).1 = (getBeforeCursor el).1 ∧
      (getAfterCursor { el with selectionStart := k }).1 = (getAfterCursor el).1 := by
  refine ⟨?_, rfl, fun k => ⟨rfl, rfl⟩⟩
  show String.mk (el.value.data.take el.selectionEnd)
      ++ String.mk (el.value.data.drop el.selectionEnd) = el.value
  rw [mk_take_append_mk_drop]

/-- Claim C3: when the search result's replace method returns a non-tuple
value, `applySearchResult` leaves the element's value and both selection
offsets unchanged, and in all cases (tuple or not) it focuses the element
afterward. -/
theorem applySearchResult_decline_noop_and_focus
    (el : Element) (sr : SearchResult)
    (h : sr.replace (getBeforeCursor el).1 (getAfterCursor el).1 = none) :
    (applySearchResult sr el).value = el.value ∧
    (applySearchResult sr el).selectionStart = el.selectionStart ∧
    (applySearchResult sr el).selectionEnd = el.selectionEnd ∧
    ∀ sr2 : SearchResult, (applySearchResult sr2 el).focused = true := by
  simp only [getBeforeCursor, getAfterCursor] at h
  refine ⟨?_, ?_, ?_, fun sr2 => ?_⟩
  · simp [applySearchResult, getBeforeCursor, getAfterCursor, h]
  · simp [applySearchResult, getBeforeCursor, getAfterCursor, h]
  · simp [applySearchResult, getBeforeCursor, getAfterCursor, h]
  · cases hr : sr2.replace (jsSubstringTo el.value el.selectionEnd)
        (jsSubstringFrom el.value el.selectionEnd) with
    | none => simp [applySearchResult, getBeforeCursor, getAfterCursor, hr]
    | some pr => simp [applySearchResult, getBeforeCursor, getAfterCursor, hr]

/-- Witness for C3: a declining search result leaves `"hello"` and the
selection untouched and the element ends up focused. -/
theorem applySearchResult_decline_witness :
    (applySearchResult srDecline elHello).value = "hello" ∧
    (applySearchResult srDecline elHello).selectionStart = 5 ∧
    (applySearchResult srDecline elHello).selectionEnd = 5 ∧
    (applySearchResult srDecline elHello).focused = true := by
  have h := applySearchResult_decline_noop_and_focus elHello srDecline rfl
  exact ⟨h.1, h.2.1, h.2.2.1, h.2.2.2 srDecline⟩

/-- Claim C10: the read operations `getBeforeCursor`, `getAfterCursor` and
`getCursorOffset` return the element state unchanged. -/
theorem read_operations_preserve_element (env : GeometryEnv) (el : Element) :
    (getBeforeCursor el).2 = el ∧ (getAfterCursor el).2 = el ∧
    (getCursorOffset env el).2 = el := by
  refine ⟨rfl, rfl, ?_⟩
  unfold getCursorOffset getElScroll getCursorPosition
  dsimp only
  split
  · rfl
  · split <;> rfl

/-- Sample geometry environment: element offset `(10, 20)`, caret
coordinates `(i, 2)` at offset `i`, line height 4, viewport width 100. -/
def env0 : GeometryEnv :=
  { calculateElementOffset := { top := 10, left := 20 },
    getCaretCoordinates := fun i => { top := (i : Int), left := 2 },
    lineHeight := 4,
    documentElement := some 100 }

/-- Sample geometry environment with no document root available. -/
def envNoDoc : GeometryEnv :=
  { env0 with documentElement := none }

/-- Sample left-to-right element with nonzero scroll offsets. -/
def elLtr : Element :=
  { value := "abc", selectionStart := 1, selectionEnd := 2, focused := false,
    dir := "ltr", scrollTop := 3, scrollLeft := 5,
    inputListener := true, keydownListener := true, keyupListener := true }

/-- Sample right-to-left element with the same geometry as `elLtr`. -/
def elRtl : Element :=
  { elLtr with dir := "rtl" }

/-- Claim C4: `onKeydown` emits a move notification carrying the direction
for the `UP`/`DOWN` codes, an enter notification for `ENTER`, an esc
notification for `ESC`, nothing for any other code; and it calls
`preventDefault` exactly when the emitted notification was marked handled by
the listener (never when nothing was emitted). -/
theorem onKeydown_dispatch (handler : Notification → Bool) (e : KeyEvent) :
    (getCode e = KeyCode.UP ∨ getCode e = KeyCode.DOWN →
      onKeydown handler e = { emitted := some (Notification.move (getCode e)),
                              preventDefault := handler (Notification.move (getCode e)) }) ∧
    (getCode e = KeyCode.ENTER →
      onKeydown handler e = { emitted := some Notification.enter,
                              preventDefault := handler Notification.enter }) ∧
    (getCode e = KeyCode.ESC →
      onKeydown handler e = { emitted := some Notification.esc,
                              preventDefault := handler Notification.esc }) ∧
    (getCode e ≠ KeyCode.UP ∧ getCode e ≠ KeyCode.DOWN ∧
      getCode e ≠ KeyCode.ENTER ∧ getCode e ≠ KeyCode.ESC →
      onKeydown handler e = { emitted := none, preventDefault := false }) := by
  obtain ⟨c⟩ := e
  cases c <;>
    simp [onKeydown, getCode, emitMoveEvent, emitEnterEvent, emitEscEvent]

/-- Witness for C4: pressing up with a listener that marks every
notification handled emits a move-up notification and suppresses the
default action. -/
theorem onKeydown_dispatch_witness :
    onKeydown (fun _ => true) { code := KeyCode.UP } =
      { emitted := some (Notification.move KeyCode.UP), preventDefault := true } :=
  (onKeydown_dispatch (fun _ => true) { code := KeyCode.UP }).1 (Or.inl rfl)

/-- Claim C9: `onKeyup` emits exactly one change notification when the IE9
flag is set and the decoded code is `BS`, and emits nothing in every other
case. -/
theorem onKeyup_change_iff (handler : Notification → Bool) (flag : Bool) (e : KeyEvent) :
    (flag = true ∧ getCode e = KeyCode.BS →
      onKeyup handler flag e = [Notification.change]) ∧
    (¬(flag = true ∧ getCode e = KeyCode.BS) →
      onKeyup handler flag e = []) := by
  obtain ⟨c⟩ := e
  constructor
  · rintro ⟨h1, h2⟩
    subst h1
    cases c <;> simp_all [onKeyup, getCode, emitChangeEvent]
  · intro h
    cases flag <;> cases c <;> simp_all [onKeyup, getCode, emitChangeEvent]

/-- Witness for C9: with the IE9 flag set, releasing backspace emits exactly
one change notification. -/
theorem onKeyup_change_witness :
    onKeyup (fun _ => true) true { code := KeyCode.BS } = [Notification.change] :=
  (onKeyup_change_iff (fun _ => true) true { code := KeyCode.BS }).1 ⟨rfl, rfl⟩

/-- Claim C7: for a non-RTL element, `getCursorOffset` returns
`top = elementOffset.top - scrollTop + caretPosition.top + lineHeight` and
`left = elementOffset.left - scrollLeft + caretPosition.left` (the line
height is added to `top` only), together with the measured line height. -/
theorem getCursorOffset_ltr_formula (env : GeometryEnv) (el : Element)
    (h : el.dir ≠ "rtl") :
    (getCursorOffset env el).1 = some (CursorOffset.ltr
      (env.calculateElementOffset.top - el.scrollTop
        + (env.getCaretCoordinates el.selectionEnd).top + env.lineHeight)
      (env.calculateElementOffset.left - el.scrollLeft
        + (env.getCaretCoordinates el.selectionEnd).left)
      env.lineHeight) := by
  simp [getCursorOffset, getElScroll, getCursorPosition, h]

/-- Witness for C7: on the sample geometry, `top = 10 - 3 + 2 + 4 = 13`
and `left = 20 - 5 + 2 = 17`. -/
theorem getCursorOffset_ltr_witness :
    (getCursorOffset env0 elLtr).1 = some (CursorOffset.ltr 13 17 4) :=
  getCursorOffset_ltr_formula env0 elLtr (by decide)

/-- Claim C8: for an RTL element, `getCursorOffset` returns a `right`-based
offset with `right = clientWidth - left` when the document root is
available, and `none` (no coordinates, no exception) when it is not. -/
theorem getCursorOffset_rtl_formula (env : GeometryEnv) (el : Element)
    (h : el.dir = "rtl") :
    (∀ w : Int, env.documentElement = some w →
      (getCursorOffset env el).1 = some (CursorOffset.rtl
        (env.calculateElementOffset.top - el.scrollTop
          + (env.getCaretCoordinates el.selectionEnd).top + env.lineHeight)
        (w - (env.calculateElementOffset.left - el.scrollLeft
          + (env.getCaretCoordinates el.selectionEnd).left))
        env.lineHeight)) ∧
    (env.documentElement = none → (getCursorOffset env el).1 = none) := by
  constructor
  · intro w hw
    simp [getCursorOffset, getElScroll, getCursorPosition, h, hw]
  · intro hw
    simp [getCursorOffset, getElScroll, getCursorPosition, h, hw]

/-- Witness for C8: on the sample geometry (viewport width 100) the RTL
element gets `right = 100 - 17 = 83`, and with no document root the result
is `none`. -/
theorem getCursorOffset_rtl_witness :
    (getCursorOffset env0 elRtl).1 = some (CursorOffset.rtl 13 83 4) ∧
    (getCursorOffset envNoDoc elRtl).1 = none :=
  ⟨(getCursorOffset_rtl_formula env0 elRtl rfl).1 100 rfl,
   (getCursorOffset_rtl_formula envNoDoc elRtl rfl).2 rfl⟩

/-- Sample adapter freshly bound to `elHello`. -/
def taSample : Textarea :=
  { el := elHello, elRef := true, isIE9 := false }

/-- The state `finalize taSample` reaches: listeners removed, element
reference released. -/
def taFinalized : Textarea :=
  { el := { elHello with
      inputListener := false, keydownListener := false, keyupListener := false },
    elRef := false, isIE9 := false }

/-- Claim C5: when `finalize` completes on an adapter, all three listeners
are removed on that single exit path, and afterwards no simulated native
input, keydown or keyup event produces any notification (nor a
`preventDefault` call). -/
theorem finalize_removes_listeners_and_silences
    (t tFin : Textarea) (h : finalize t = Except.ok tFin) :
    tFin.el.inputListener = false ∧ tFin.el.keydownListener = false ∧
    tFin.el.keyupListener = false ∧
    ∀ (handler : Notification → Bool) (ev : NativeEvent),
      dispatch tFin handler ev = ([], false) := by
  unfold finalize superFinalize at h
  split at h
  · next t2 heq =>
      injection h with h2
      subst h2
      unfold stopListening at heq
      split at heq
      · injection heq with heq2
        subst heq2
        refine ⟨rfl, rfl, rfl, fun handler ev => ?_⟩
        cases ev <;> simp [dispatch]
      · cases heq
  · next msg heq => cases h

/-- Witness for C5: after finalizing the sample adapter, a simulated input
event produces no notification. -/
theorem finalize_silences_witness :
    dispatch taFinalized (fun _ => true) NativeEvent.input = ([], false) :=
  (finalize_removes_listeners_and_silences taSample taFinalized rfl).2.2.2
    (fun _ => true) NativeEvent.input

/-- Claim C6 counterexample: `finalize` succeeds once on the sample adapter,
and the second call throws a `TypeError` instead of returning — calling
`finalize` twice does crash. -/
theorem finalize_twice_throws :
    finalize taSample = Except.ok taFinalized ∧
    finalize taFinalized = Except.error "TypeError: this.el is undefined" :=
  ⟨rfl, rfl⟩

/-- Claim C6 (amended): after a successful `finalize` the element reference
is released, and a second `finalize` call throws a `TypeError` (its
`stopListening` dereferences the deleted `this.el`); `finalize` is not safe
to call twice. -/
theorem finalize_second_call_throws (t tFin : Textarea)
    (h : finalize t = Except.ok tFin) :
    tFin.elRef = false ∧
    finalize tFin = Except.error "TypeError: this.el is undefined" := by
  unfold finalize superFinalize at h
  split at h
  · next t2 heq =>
      injection h with h2
      subst h2
      exact ⟨rfl, rfl⟩
  · next msg heq => cases h

/-- Witness for the amended C6: the finalized sample adapter has its element
reference released and the second `finalize` call throws. -/
theorem finalize_second_call_throws_witness :
    taFinalized.elRef = false ∧
    finalize taFinalized = Except.error "TypeError: this.el is undefined" :=
  finalize_second_call_throws taSample taFinalized rfl

end Textcomplete
